import Mathlib

/-!
Verification of the switcher first-stage bootloader core against its
natural-language specification.

The development is a shallow embedding of `src/switcher.h` / `switcher.c`:

* `image_t` mirrors the packed on-flash header struct (24-bit `checksum`,
  8-bit `version`, 24-bit `length`, the four active-low one-bit latches
  `nValid`, `nInvalid`, `nSuccess`, `nFailure`, and the 4-bit `nAttempts`
  field).  Machine widths are modelled by `Nat` together with explicit
  `% 16` truncation at the one write that can overflow
  (`image->nAttempts = (uint8_t)(image->nAttempts << 1)`).
* Flash memory is a byte map `mem : Nat → Nat`; a header's storage address
  is passed explicitly (the C code works through pointers).  The external
  `crc_24` implementation is not part of this repository (only `crc.h`
  declares it), so it is an abstract deterministic parameter
  `crc : List Nat → Nat`, exactly the "opaque deterministic function"
  contract the specification gives it.
* Stateful C functions become explicit state passing: `_can_boot` returns
  the boolean outcome, the updated header, and the number of times it
  invoked the checksum verifier (so that "the verifier is run at most
  once" claims are statable).  `switcher_choose` returns the chosen
  header's address (the C function returns the pointer), both updated
  headers, and the total verifier-call count.  `switcher_boot` returns the
  updated header together with the control-flow outcome (return to caller
  versus jump to an entry address).
-/

/-- The packed image header (struct `image_t` in `switcher.h`): checksum,
version and length bitfields, the four active-low one-way latches, and the
4-bit attempts budget.  Fresh flash cells read as all ones. -/
structure image_t where
  checksum : Nat
  version : Nat
  length : Nat
  nValid : Bool
  nInvalid : Bool
  nSuccess : Bool
  nFailure : Bool
  nAttempts : Nat
deriving DecidableEq

/-- C `switcher_set_success`: clear the not-yet-succeeded latch. -/
def switcher_set_success (i : image_t) : image_t :=
  { i with nSuccess := false }

/-- C `switcher_set_failure`: clear the not-yet-failed latch. -/
def switcher_set_failure (i : image_t) : image_t :=
  { i with nFailure := false }

/-- C `_image_start`: the image body starts at the header's storage address
minus the image length (the header sits immediately after the image). -/
def _image_start (addr : Nat) (i : image_t) : Nat :=
  addr - i.length

/-- The byte range of length `n` starting at address `start` in flash,
as handed to `crc_24(data, data_len)`. -/
def readBytes (mem : Nat → Nat) (start n : Nat) : List Nat :=
  (List.range n).map fun k => mem (start + k)

/-- C `_checksum_valid`: run the image body together with its 3-byte stored
checksum (`length + 3` bytes from `_image_start`) through the CRC; the image
is valid exactly when the remainder is zero (`!crc_24(...)`). -/
def _checksum_valid (crc : List Nat → Nat) (mem : Nat → Nat) (addr : Nat)
    (i : image_t) : Bool :=
  crc (readBytes mem (_image_start addr i) (i.length + 3)) == 0

/-- C `_can_boot`, translated branch for branch.  The result is the returned
boolean, the (possibly latched) header, and how many times `_checksum_valid`
was invoked. -/
def _can_boot (crc : List Nat → Nat) (mem : Nat → Nat) (addr : Nat)
    (i : image_t) : Bool × image_t × Nat :=
  if !i.nFailure then (false, i, 0)
  else if !i.nSuccess then (true, i, 0)
  else if i.nValid then
    if i.nInvalid then (false, i, 0)
    else if !(_checksum_valid crc mem addr i) then
      (false, { i with nInvalid := false }, 1)
    else ((i.nAttempts != 0), { i with nValid := false }, 1)
  else ((i.nAttempts != 0), i, 0)

/-- C `switcher_choose`: evaluate `_can_boot` on both candidates (both side
effects happen unconditionally, in argument order), then return NULL when
neither is bootable, the single bootable one when exactly one is, and
otherwise the higher header address (`(a >= b) ? a : b`).  The result is the
chosen address (`none` for NULL), the two updated headers, and the total
number of verifier invocations. -/
def switcher_choose (crc : List Nat → Nat) (mem : Nat → Nat)
    (addrA addrB : Nat) (a b : image_t) :
    Option Nat × image_t × image_t × Nat :=
  let ra := _can_boot crc mem addrA a
  let rb := _can_boot crc mem addrB b
  let choice : Option Nat :=
    if !ra.1 && !rb.1 then none
    else if ra.1 && !rb.1 then some addrA
    else if !ra.1 && rb.1 then some addrB
    else some (if addrB ≤ addrA then addrA else addrB)
  (choice, ra.2.1, rb.2.1, ra.2.2 + rb.2.2)

/-- The header mutation performed by C `switcher_boot` on a non-NULL image:
if the image has not been marked successfully booted, shift the 4-bit
attempts field left by one (`(uint8_t)(image->nAttempts << 1)` stored back
into the 4-bit bitfield, hence the `% 16`). -/
def boot_update (i : image_t) : image_t :=
  if i.nSuccess then { i with nAttempts := i.nAttempts * 2 % 16 } else i

/-- Control-flow outcome of `switcher_boot`: either it returns to the caller
(NULL image) or it irreversibly jumps to an entry address. -/
inductive BootOutcome where
  | halted
  | jumped (entry : Nat)
deriving DecidableEq

/-- C `switcher_boot`: a no-op returning to the caller on NULL; otherwise
update the attempts bookkeeping and transfer control to the start of the
image (`_image_start`, computed from the updated header). -/
def switcher_boot (addr : Nat) : Option image_t → Option image_t × BootOutcome
  | none => (none, BootOutcome.halted)
  | some i =>
      let i2 := boot_update i
      (some i2, BootOutcome.jumped (_image_start addr i2))

/-- A freshly-flashed header: all four latches still set and the attempts
budget full (`0b1111`), with the given checksum, version and length
(struct comment in `switcher.h`: initialized with 1s except for length,
checksum and version). -/
def flashed (c v l : Nat) : image_t :=
  { checksum := c, version := v, length := l, nValid := true,
    nInvalid := true, nSuccess := true, nFailure := true, nAttempts := 15 }

/-- One mutation step the core (or the running image, via the set-success /
set-failure contract) can perform on a stored header. -/
inductive Step : image_t → image_t → Prop where
  | set_success (i : image_t) : Step i (switcher_set_success i)
  | set_failure (i : image_t) : Step i (switcher_set_failure i)
  | can_boot (crc : List Nat → Nat) (mem : Nat → Nat) (addr : Nat)
      (i : image_t) : Step i (_can_boot crc mem addr i).2.1
  | boot (i : image_t) : Step i (boot_update i)

/-- Header states reachable from some freshly-flashed state by the core's
operations. -/
inductive Reachable : image_t → Prop where
  | flashed (c v l : Nat) : Reachable (flashed c v l)
  | step {s s' : image_t} : Reachable s → Step s s' → Reachable s'

/-- The attempts values that actually occur in a header's lifetime:
left-shifts of the initial `0b1111` inside a 4-bit field. -/
def attempts_ok (a : Nat) : Prop :=
  a = 15 ∨ a = 14 ∨ a = 12 ∨ a = 8 ∨ a = 0

/-- C1: evaluating the eligibility test on any freshly-flashed header (all
four latches set, attempts full) returns ineligible, performs zero verifier
calls, and leaves the header unchanged — for every checksum routine, memory
content and address, hence in particular when the stored checksum is
correct.  This exhibits the divergence of the code from the claim, which
requires such a header (with a correct checksum) to be eligible. -/
theorem c1_flashed_never_eligible (crc : List Nat → Nat) (mem : Nat → Nat)
    (addr c v l : Nat) :
    _can_boot crc mem addr (flashed c v l) = (false, flashed c v l, 0) := rfl

/-- The eligibility test never changes the checksum, version, length,
success/failure latches or the attempts field of a header: it writes at
most `nValid` and `nInvalid`. -/
lemma can_boot_snd_frame (crc : List Nat → Nat) (mem : Nat → Nat)
    (addr : Nat) (i : image_t) :
    (_can_boot crc mem addr i).2.1.checksum = i.checksum
    ∧ (_can_boot crc mem addr i).2.1.version = i.version
    ∧ (_can_boot crc mem addr i).2.1.length = i.length
    ∧ (_can_boot crc mem addr i).2.1.nSuccess = i.nSuccess
    ∧ (_can_boot crc mem addr i).2.1.nFailure = i.nFailure
    ∧ (_can_boot crc mem addr i).2.1.nAttempts = i.nAttempts := by
  unfold _can_boot
  split_ifs <;> exact ⟨rfl, rfl, rfl, rfl, rfl, rfl⟩

/-- The eligibility test only ever clears the two validation latches, never
re-arms them. -/
lemma can_boot_latch_mono (crc : List Nat → Nat) (mem : Nat → Nat)
    (addr : Nat) (i : image_t) :
    ((_can_boot crc mem addr i).2.1.nValid = true → i.nValid = true)
    ∧ ((_can_boot crc mem addr i).2.1.nInvalid = true → i.nInvalid = true) := by
  unfold _can_boot
  split_ifs <;>
    exact ⟨fun h => by first | exact h | exact Bool.noConfusion h | exact h.elim,
           fun h => by first | exact h | exact Bool.noConfusion h | exact h.elim⟩

/-- Boot bookkeeping does not touch any field other than the attempts
budget. -/
lemma boot_update_frame (i : image_t) :
    (boot_update i).checksum = i.checksum
    ∧ (boot_update i).version = i.version
    ∧ (boot_update i).length = i.length
    ∧ (boot_update i).nValid = i.nValid
    ∧ (boot_update i).nInvalid = i.nInvalid
    ∧ (boot_update i).nSuccess = i.nSuccess
    ∧ (boot_update i).nFailure = i.nFailure := by
  unfold boot_update
  split <;> simp

/-- Boot bookkeeping either leaves attempts alone or left-shifts it inside
the 4-bit field. -/
lemma boot_update_attempts (i : image_t) :
    (boot_update i).nAttempts = i.nAttempts
    ∨ (boot_update i).nAttempts = i.nAttempts * 2 % 16 := by
  unfold boot_update
  split <;> simp

/-- C2 counterexample: the concrete header with the not-yet-validated latch
already cleared and the not-yet-invalid latch still set (plus both
success/failure latches set and a full attempts budget).  Clause (a) of the
claim declares it ineligible; the code finds it eligible (result `true`),
with zero verifier calls and no mutation. -/
theorem c2_counterexample :
    _can_boot (fun _ => 0) (fun _ => 0) 0
        ⟨0, 0, 0, false, true, true, true, 15⟩
      = (true, ⟨0, 0, 0, false, true, true, true, 15⟩, 0) := rfl

/-- C2 (amended): for a header with not-yet-failed and not-yet-succeeded
both still set, the code's eligibility test is: if not-yet-validated is
already cleared, the verifier is not called and eligibility is exactly
`attempts ≠ 0`; if not-yet-validated and not-yet-invalid are both still
set, the header is ineligible and the verifier is not called; only when
not-yet-validated is still set and not-yet-invalid is already cleared is
the verifier run (once) — on failure not-yet-invalid is (re)cleared and the
header is ineligible, on success not-yet-validated is cleared and
eligibility is exactly `attempts ≠ 0`. -/
theorem c2_eligibility_cases (crc : List Nat → Nat) (mem : Nat → Nat)
    (addr : Nat) (i : image_t)
    (hF : i.nFailure = true) (hS : i.nSuccess = true) :
    (i.nValid = false →
      _can_boot crc mem addr i = ((i.nAttempts != 0), i, 0))
    ∧ (i.nValid = true → i.nInvalid = true →
      _can_boot crc mem addr i = (false, i, 0))
    ∧ (i.nValid = true → i.nInvalid = false →
        _checksum_valid crc mem addr i = false →
      _can_boot crc mem addr i = (false, { i with nInvalid := false }, 1))
    ∧ (i.nValid = true → i.nInvalid = false →
        _checksum_valid crc mem addr i = true →
      _can_boot crc mem addr i
        = ((i.nAttempts != 0), { i with nValid := false }, 1)) := by
  refine ⟨?_, ?_, ?_, ?_⟩ <;> intros <;> simp [_can_boot, *]

/-- C2 witness: the amended case analysis applied to a concrete header with
both validation latches still set, which the code rejects without calling
the verifier. -/
theorem c2_eligibility_cases_witness :
    _can_boot (fun _ => 0) (fun _ => 0) 0
        ⟨0, 0, 0, true, true, true, true, 15⟩
      = (false, ⟨0, 0, 0, true, true, true, true, 15⟩, 0) :=
  (c2_eligibility_cases (fun _ => 0) (fun _ => 0) 0
    ⟨0, 0, 0, true, true, true, true, 15⟩ rfl rfl).2.1 rfl rfl

/-- C3: concrete run showing repeated verification.  The first candidate has
not-yet-validated still set and not-yet-invalid already cleared, and its
checksum is bad (the CRC stub returns 1); the second candidate is marked
failed.  The first `switcher_choose` performs one verifier call and leaves
both headers bit-for-bit unchanged, so the second `switcher_choose` over the
resulting headers performs one verifier call again — the claim requires
zero verifier calls on the second run. -/
theorem c3_verifier_rerun :
    switcher_choose (fun _ => 1) (fun _ => 0) 8 0
        ⟨0, 0, 0, true, false, true, true, 15⟩
        ⟨0, 0, 0, true, true, true, false, 15⟩
      = (none, ⟨0, 0, 0, true, false, true, true, 15⟩,
          ⟨0, 0, 0, true, true, true, false, 15⟩, 1)
    ∧ (switcher_choose (fun _ => 1) (fun _ => 0) 8 0
        (switcher_choose (fun _ => 1) (fun _ => 0) 8 0
          ⟨0, 0, 0, true, false, true, true, 15⟩
          ⟨0, 0, 0, true, true, true, false, 15⟩).2.1
        (switcher_choose (fun _ => 1) (fun _ => 0) 8 0
          ⟨0, 0, 0, true, false, true, true, 15⟩
          ⟨0, 0, 0, true, true, true, false, 15⟩).2.2.1).2.2.2 = 1 :=
  ⟨rfl, rfl⟩

/-- The chosen address computed by `switcher_choose`, written out in terms
of the two eligibility results. -/
lemma choose_choice (crc : List Nat → Nat) (mem : Nat → Nat)
    (addrA addrB : Nat) (a b : image_t) :
    (switcher_choose crc mem addrA addrB a b).1 =
      if !(_can_boot crc mem addrA a).1 && !(_can_boot crc mem addrB b).1 then
        none
      else if (_can_boot crc mem addrA a).1 && !(_can_boot crc mem addrB b).1 then
        some addrA
      else if !(_can_boot crc mem addrA a).1 && (_can_boot crc mem addrB b).1 then
        some addrB
      else some (if addrB ≤ addrA then addrA else addrB) := rfl

/-- The updated headers and the verifier-call count returned by
`switcher_choose` are exactly those of the two `_can_boot` evaluations. -/
lemma choose_states (crc : List Nat → Nat) (mem : Nat → Nat)
    (addrA addrB : Nat) (a b : image_t) :
    (switcher_choose crc mem addrA addrB a b).2.1
        = (_can_boot crc mem addrA a).2.1
    ∧ (switcher_choose crc mem addrA addrB a b).2.2.1
        = (_can_boot crc mem addrB b).2.1
    ∧ (switcher_choose crc mem addrA addrB a b).2.2.2
        = (_can_boot crc mem addrA a).2.2 + (_can_boot crc mem addrB b).2.2 :=
  ⟨rfl, rfl, rfl⟩

/-- The eligibility verdict never reads the version field: `_can_boot`
returns the same boolean when only `version` is overwritten. -/
lemma can_boot_version (crc : List Nat → Nat) (mem : Nat → Nat)
    (addr v : Nat) (i : image_t) :
    (_can_boot crc mem addr { i with version := v }).1
      = (_can_boot crc mem addr i).1 := by
  obtain ⟨c0, v0, l0, nv, ni, ns, nf, na⟩ := i
  cases nf <;> cases ns <;> cases nv <;> cases ni <;>
    cases hcv : crc (readBytes mem (addr - l0) (l0 + 3)) == 0 <;>
      simp [_can_boot, _checksum_valid, _image_start, hcv]

/-- C4: `switcher_choose` is deterministic — identical header states at
identical addresses always yield the identical chosen header — and when
both candidates are simultaneously eligible the tie-break compares the two
header storage addresses: the higher address wins, the first argument
winning on equality (`(a >= b) ? a : b`), independently of the two version
fields. -/
theorem c4_deterministic_address_tiebreak (crc : List Nat → Nat)
    (mem : Nat → Nat) (addrA addrB : Nat) (a b : image_t)
    (ha : (_can_boot crc mem addrA a).1 = true)
    (hb : (_can_boot crc mem addrB b).1 = true) :
    (switcher_choose crc mem addrA addrB a b).1
        = some (if addrB ≤ addrA then addrA else addrB)
    ∧ (∀ r1 r2 : Option Nat × image_t × image_t × Nat,
        r1 = switcher_choose crc mem addrA addrB a b →
        r2 = switcher_choose crc mem addrA addrB a b → r1 = r2)
    ∧ (∀ v1 v2 : Nat,
        (switcher_choose crc mem addrA addrB
            { a with version := v1 } { b with version := v2 }).1
          = (switcher_choose crc mem addrA addrB a b).1) := by
  refine ⟨?_, ?_, ?_⟩
  · rw [choose_choice, ha, hb]
    simp
  · intro r1 r2 h1 h2
    rw [h1, h2]
  · intro v1 v2
    rw [choose_choice, choose_choice]
    simp only [can_boot_version]

/-- C4 witness: two concrete simultaneously-eligible headers at addresses 4
and 9; the tie-break picks address 9. -/
theorem c4_witness :
    (switcher_choose (fun _ => 0) (fun _ => 0) 4 9
        ⟨0, 1, 0, true, true, false, true, 15⟩
        ⟨0, 2, 0, true, true, false, true, 15⟩).1
      = some (if 9 ≤ 4 then 4 else 9) :=
  (c4_deterministic_address_tiebreak (fun _ => 0) (fun _ => 0) 4 9
    ⟨0, 1, 0, true, true, false, true, 15⟩
    ⟨0, 2, 0, true, true, false, true, 15⟩ rfl rfl).1

/-- C6: a header whose not-yet-succeeded latch is already cleared while
not-yet-failed is still set is always found eligible — for every checksum
routine, memory content and attempts value — with zero verifier calls and
no mutation; `switcher_choose` therefore never returns NULL when it is a
candidate, and boot bookkeeping leaves it entirely unchanged (in particular
its attempts field is not decremented). -/
theorem c6_succeeded_image_exempt (crc : List Nat → Nat) (mem : Nat → Nat)
    (addrA addrB : Nat) (i b : image_t)
    (hS : i.nSuccess = false) (hF : i.nFailure = true) :
    _can_boot crc mem addrA i = (true, i, 0)
    ∧ (switcher_choose crc mem addrA addrB i b).1.isSome = true
    ∧ boot_update i = i := by
  have h1 : _can_boot crc mem addrA i = (true, i, 0) := by
    simp [_can_boot, hS, hF]
  have h1f : (_can_boot crc mem addrA i).1 = true := by rw [h1]
  refine ⟨h1, ?_, ?_⟩
  · rw [choose_choice, h1f]
    cases hcb : (_can_boot crc mem addrB b).1 <;> simp
  · simp [boot_update, hS]

/-- C6 witness: a concrete previously-succeeded header with an exhausted
attempts budget and an incorrect checksum (the CRC stub returns 7) is still
eligible, never verified, chosen over a fresh competitor, and left alone by
boot bookkeeping. -/
theorem c6_witness :
    _can_boot (fun _ => 7) (fun _ => 0) 3 ⟨1, 1, 1, true, true, false, true, 0⟩
        = (true, ⟨1, 1, 1, true, true, false, true, 0⟩, 0)
    ∧ (switcher_choose (fun _ => 7) (fun _ => 0) 3 4
        ⟨1, 1, 1, true, true, false, true, 0⟩
        ⟨0, 0, 0, true, true, true, true, 15⟩).1.isSome = true
    ∧ boot_update ⟨1, 1, 1, true, true, false, true, 0⟩
        = ⟨1, 1, 1, true, true, false, true, 0⟩ :=
  c6_succeeded_image_exempt (fun _ => 7) (fun _ => 0) 3 4
    ⟨1, 1, 1, true, true, false, true, 0⟩
    ⟨0, 0, 0, true, true, true, true, 15⟩ rfl rfl

/-- C8: when neither candidate is eligible `switcher_choose` returns the
defined value NULL (`none`) — no exceptional control flow exists in the
model, every outcome is a returned value — and dispatching NULL is a no-op:
`switcher_boot` returns to the caller with no header mutated and no control
transfer. -/
theorem c8_none_defined_and_boot_noop (crc : List Nat → Nat)
    (mem : Nat → Nat) (addrA addrB : Nat) (a b : image_t)
    (ha : (_can_boot crc mem addrA a).1 = false)
    (hb : (_can_boot crc mem addrB b).1 = false) :
    (switcher_choose crc mem addrA addrB a b).1 = none
    ∧ ∀ addr : Nat, switcher_boot addr none = (none, BootOutcome.halted) := by
  constructor
  · rw [choose_choice, ha, hb]
    exact rfl
  · intro addr
    rfl

/-- C8 witness: two concrete headers both already marked failed; the
selector returns NULL and dispatching NULL at address 7 is a no-op. -/
theorem c8_witness :
    (switcher_choose (fun _ => 0) (fun _ => 0) 1 2
        ⟨0, 0, 0, true, true, true, false, 15⟩
        ⟨0, 0, 0, true, true, true, false, 15⟩).1 = none
    ∧ switcher_boot 7 none = (none, BootOutcome.halted) := by
  have h := c8_none_defined_and_boot_noop (fun _ => 0) (fun _ => 0) 1 2
    ⟨0, 0, 0, true, true, true, false, 15⟩
    ⟨0, 0, 0, true, true, true, false, 15⟩ rfl rfl
  exact ⟨h.1, h.2 7⟩

/-- A header that has never latched success and whose attempts budget has
reached zero fails the eligibility test on every path, and both the
eligibility test and boot bookkeeping preserve that exhausted state. -/
lemma exhausted_ineligible {j : image_t} (hS : j.nSuccess = true)
    (h0 : j.nAttempts = 0) (crc : List Nat → Nat) (mem : Nat → Nat)
    (addr : Nat) :
    (_can_boot crc mem addr j).1 = false
    ∧ (_can_boot crc mem addr j).2.1.nSuccess = true
    ∧ (_can_boot crc mem addr j).2.1.nAttempts = 0
    ∧ (boot_update j).nSuccess = true ∧ (boot_update j).nAttempts = 0 := by
  obtain ⟨c0, v0, l0, nv, ni, ns, nf, na⟩ := j
  cases hS
  cases h0
  cases nf <;> cases nv <;> cases ni <;>
    cases hcv : crc (readBytes mem (addr - l0) (l0 + 3)) == 0 <;>
      simp [_can_boot, _checksum_valid, _image_start, boot_update, hcv]

/-- An ineligible first candidate is never the one `switcher_choose`
returns: the result is NULL or the other candidate's address. -/
lemma ineligible_not_chosen {crc : List Nat → Nat} {mem : Nat → Nat}
    {addrA : Nat} {j : image_t} (h : (_can_boot crc mem addrA j).1 = false)
    (addrB : Nat) (b : image_t) :
    (switcher_choose crc mem addrA addrB j b).1 = none
    ∨ (switcher_choose crc mem addrA addrB j b).1 = some addrB := by
  rw [choose_choice, h]
  cases hcb : (_can_boot crc mem addrB b).1 <;> simp

/-- C5: for a header that never latches success, each dispatch left-shifts
the 4-bit attempts field by one (high bit discarded, zero shifted in at the
low end) and touches nothing else; after four consecutive dispatches the
attempts field is exactly zero while both checksum-validity latches are
untouched, and from then on the header fails the eligibility test on every
path — the eligibility test and further dispatches keep it exhausted, and
`switcher_choose` never returns it. -/
theorem c5_four_dispatches_exhaust (i : image_t)
    (hS : i.nSuccess = true) (hA : i.nAttempts < 16) :
    (boot_update i).nAttempts = i.nAttempts * 2 % 16
    ∧ (boot_update i).nValid = i.nValid
    ∧ (boot_update i).nInvalid = i.nInvalid
    ∧ (boot_update i).nSuccess = i.nSuccess
    ∧ (boot_update i).nFailure = i.nFailure
    ∧ (boot_update (boot_update (boot_update (boot_update i)))).nAttempts = 0
    ∧ (boot_update (boot_update (boot_update (boot_update i)))).nValid
        = i.nValid
    ∧ (boot_update (boot_update (boot_update (boot_update i)))).nInvalid
        = i.nInvalid
    ∧ (boot_update (boot_update (boot_update (boot_update i)))).nSuccess
        = true
    ∧ (∀ j : image_t, j.nSuccess = true → j.nAttempts = 0 →
        ∀ (crc : List Nat → Nat) (mem : Nat → Nat) (addrA addrB : Nat)
          (b : image_t),
          (_can_boot crc mem addrA j).1 = false
          ∧ (_can_boot crc mem addrA j).2.1.nSuccess = true
          ∧ (_can_boot crc mem addrA j).2.1.nAttempts = 0
          ∧ (boot_update j).nSuccess = true ∧ (boot_update j).nAttempts = 0
          ∧ ((switcher_choose crc mem addrA addrB j b).1 = none
              ∨ (switcher_choose crc mem addrA addrB j b).1 = some addrB)) := by
  obtain ⟨c0, v0, l0, nv, ni, ns, nf, na⟩ := i
  cases hS
  have h16 : na * 2 % 16 * 2 % 16 * 2 % 16 * 2 % 16 = 0 := by
    simp only [image_t.nAttempts] at hA
    omega
  refine ⟨rfl, rfl, rfl, rfl, rfl, ?_, rfl, rfl, rfl, ?_⟩
  · simpa [boot_update] using h16
  · intro j hSj h0j crc mem addrA addrB b
    obtain ⟨e1, e2, e3, e4, e5⟩ := exhausted_ineligible hSj h0j crc mem addrA
    exact ⟨e1, e2, e3, e4, e5, ineligible_not_chosen e1 addrB b⟩

/-- C5 witness: a freshly-flashed header (attempts `0b1111`) that never
latches success reaches attempts = 0 after exactly four dispatches. -/
theorem c5_witness :
    (boot_update (boot_update (boot_update (boot_update
        (flashed 0 0 0))))).nAttempts = 0 :=
  (c5_four_dispatches_exhaust (flashed 0 0 0) rfl
    (by decide)).2.2.2.2.2.1

/-- The boot bookkeeping never changes the image length. -/
lemma boot_update_length (i : image_t) : (boot_update i).length = i.length :=
  (boot_update_frame i).2.2.1

/-- C9: the checksum check is the CRC over the `length + 3` bytes starting
at the header's storage address minus `length` (image body plus the 3-byte
stored checksum), valid exactly when the remainder is zero; that same start
address is the entry point `switcher_boot` jumps to. -/
theorem c9_checksum_range_and_entry (crc : List Nat → Nat)
    (mem : Nat → Nat) (addr : Nat) (i : image_t) :
    (_checksum_valid crc mem addr i = true
      ↔ crc (readBytes mem (addr - i.length) (i.length + 3)) = 0)
    ∧ _image_start addr i = addr - i.length
    ∧ (switcher_boot addr (some i)).2
        = BootOutcome.jumped (addr - i.length) := by
  refine ⟨?_, rfl, ?_⟩
  · simp [_checksum_valid, _image_start]
  · simp [switcher_boot, _image_start, boot_update_length]

/-- C10: `switcher_choose` writes at most the two validation latches of
each candidate — checksum, version, length, the success/failure latches and
the attempts field of both candidates are returned unchanged — and
`switcher_boot` on a non-NULL header writes at most the attempts field,
never a latch nor checksum, version or length. -/
theorem c10_frame_conditions (crc : List Nat → Nat) (mem : Nat → Nat)
    (addrA addrB addr : Nat) (a b i : image_t) :
    ((switcher_choose crc mem addrA addrB a b).2.1.checksum = a.checksum
      ∧ (switcher_choose crc mem addrA addrB a b).2.1.version = a.version
      ∧ (switcher_choose crc mem addrA addrB a b).2.1.length = a.length
      ∧ (switcher_choose crc mem addrA addrB a b).2.1.nSuccess = a.nSuccess
      ∧ (switcher_choose crc mem addrA addrB a b).2.1.nFailure = a.nFailure
      ∧ (switcher_choose crc mem addrA addrB a b).2.1.nAttempts = a.nAttempts)
    ∧ ((switcher_choose crc mem addrA addrB a b).2.2.1.checksum = b.checksum
      ∧ (switcher_choose crc mem addrA addrB a b).2.2.1.version = b.version
      ∧ (switcher_choose crc mem addrA addrB a b).2.2.1.length = b.length
      ∧ (switcher_choose crc mem addrA addrB a b).2.2.1.nSuccess = b.nSuccess
      ∧ (switcher_choose crc mem addrA addrB a b).2.2.1.nFailure = b.nFailure
      ∧ (switcher_choose crc mem addrA addrB a b).2.2.1.nAttempts
          = b.nAttempts)
    ∧ ((switcher_boot addr (some i)).1.map fun j =>
          (j.checksum, j.version, j.length, j.nValid, j.nInvalid,
            j.nSuccess, j.nFailure))
        = some (i.checksum, i.version, i.length, i.nValid, i.nInvalid,
            i.nSuccess, i.nFailure) := by
  refine ⟨?_, ?_, ?_⟩
  · exact can_boot_snd_frame crc mem addrA a
  · exact can_boot_snd_frame crc mem addrB b
  · obtain ⟨f1, f2, f3, f4, f5, f6, f7⟩ := boot_update_frame i
    simp [switcher_boot, f1, f2, f3, f4, f5, f6, f7]

/-- Left-shifting inside the 4-bit field keeps the attempts value in the
lifetime set. -/
lemma attempts_ok_shift {a : Nat} (h : attempts_ok a) :
    attempts_ok (a * 2 % 16) := by
  unfold attempts_ok at h ⊢
  rcases h with rfl | rfl | rfl | rfl | rfl <;> decide

/-- For lifetime attempts values, both keeping the value and left-shifting
it only clear bits: the new value ANDed with the old one is the new value. -/
lemma attempts_land {a b : Nat} (ha : attempts_ok a)
    (hb : b = a ∨ b = a * 2 % 16) : Nat.land b a = b := by
  unfold attempts_ok at ha
  rcases hb with rfl | rfl <;>
    rcases ha with rfl | rfl | rfl | rfl | rfl <;> decide

/-- Every reachable header carries a lifetime attempts value: the initial
`0b1111` or one of its left-shift residues `0b1110`, `0b1100`, `0b1000`,
`0b0000`. -/
lemma reachable_attempts {s : image_t} (h : Reachable s) :
    attempts_ok s.nAttempts := by
  induction h with
  | flashed c v l => exact Or.inl rfl
  | @step s s' hr hs ih =>
      cases hs with
      | set_success => exact ih
      | set_failure => exact ih
      | can_boot crc mem addr =>
          rw [(can_boot_snd_frame crc mem addr s).2.2.2.2.2]
          exact ih
      | boot =>
          rcases boot_update_attempts s with hb | hb <;> rw [hb]
          · exact ih
          · exact attempts_ok_shift ih

/-- C7: from any header state reachable from a freshly-flashed one, every
operation of the core (set-success, set-failure, the eligibility test run
by `switcher_choose`, and boot bookkeeping) drives the header only toward
more restrictive states: each of the four latches can only go from set to
cleared (if it is set afterwards it was set before), and the set bits of
the attempts field afterwards are a subset of the set bits before (bitwise
AND with the old value gives the new value).  No operation re-arms a latch
or adds attempts bits. -/
theorem c7_one_way_monotonicity (s s' : image_t)
    (hr : Reachable s) (hstep : Step s s') :
    (s'.nValid = true → s.nValid = true)
    ∧ (s'.nInvalid = true → s.nInvalid = true)
    ∧ (s'.nSuccess = true → s.nSuccess = true)
    ∧ (s'.nFailure = true → s.nFailure = true)
    ∧ Nat.land s'.nAttempts s.nAttempts = s'.nAttempts := by
  have hatt := reachable_attempts hr
  cases hstep with
  | set_success =>
      exact ⟨fun h => h, fun h => h, fun h => Bool.noConfusion h,
        fun h => h, attempts_land hatt (Or.inl rfl)⟩
  | set_failure =>
      exact ⟨fun h => h, fun h => h, fun h => h,
        fun h => Bool.noConfusion h, attempts_land hatt (Or.inl rfl)⟩
  | can_boot crc mem addr =>
      obtain ⟨m1, m2⟩ := can_boot_latch_mono crc mem addr s
      obtain ⟨_, _, _, f4, f5, f6⟩ := can_boot_snd_frame crc mem addr s
      refine ⟨m1, m2, ?_, ?_, ?_⟩
      · intro h
        rw [f4] at h
        exact h
      · intro h
        rw [f5] at h
        exact h
      · rw [f6]
        exact attempts_land hatt (Or.inl rfl)
  | boot =>
      obtain ⟨_, _, _, f4, f5, f6, f7⟩ := boot_update_frame s
      refine ⟨?_, ?_, ?_, ?_, ?_⟩
      · intro h
        rw [f4] at h
        exact h
      · intro h
        rw [f5] at h
        exact h
      · intro h
        rw [f6] at h
        exact h
      · intro h
        rw [f7] at h
        exact h
      · exact attempts_land hatt (boot_update_attempts s)

/-- C7 witness: one concrete reachable state (a freshly-flashed header) and
one concrete operation (boot bookkeeping); the resulting attempts value
`0b1110` has its set bits inside the old `0b1111`. -/
theorem c7_witness :
    Nat.land (boot_update (flashed 0 0 0)).nAttempts
        (flashed 0 0 0).nAttempts
      = (boot_update (flashed 0 0 0)).nAttempts :=
  (c7_one_way_monotonicity (flashed 0 0 0) (boot_update (flashed 0 0 0))
    (Reachable.flashed 0 0 0) (Step.boot (flashed 0 0 0))).2.2.2.2
